import Mathlib

/-!
Verification development for `uv_magic.py`, an IPython magic that runs a
notebook cell inside an isolated `uv` subprocess.

The development shallowly embeds the pure content of the source:

* `parse_arguments`     – option-line parsing (`python=`, `--python`, `--with`);
* `replace_print_statements` / `PrintTransformer` – the AST pass renaming
  direct calls of the global `print` to `custom_print`;
* `build_script`        – synthesis of the self-contained script
  (inline-metadata header, capture harness, indented user code, JSON footer);
* `execute_script`      – the temporary-file / subprocess protocol, with the
  behaviour of `subprocess.run` given as an explicit outcome parameter;
* the generated harness – modelled as a function from the user code's
  effects (captured output, captured stderr, optional exception) to the
  child process's result;
* `process_output`      – JSON decoding and display of the child's stdout,
  over an executable model of `json.loads`.

User code reaching `replace_print_statements` is represented by the outcome
of `ast.parse` on it (`Except String PyModule`), since the only analysis the
source performs on the raw text is `ast.parse`.
-/

namespace UVMagic

/-! ## A fragment of the Python AST

`ast.parse` produces a module (list of statements).  The fragment below is
what the rewriting pass (`PrintTransformer`) can distinguish: names, string
and number literals, attribute access, calls, expression statements,
assignments and `pass`.  String literals are opaque leaves, so occurrences
of the word `print` inside strings are untouched by construction, exactly as
with the real `ast` module. -/

mutual

inductive PyExpr : Type where
  | name : String → PyExpr
  | strLit : String → PyExpr
  | numLit : Nat → PyExpr
  | call : PyExpr → PyArgs → PyExpr
  | attr : PyExpr → String → PyExpr

inductive PyArgs : Type where
  | nil : PyArgs
  | cons : PyExpr → PyArgs → PyArgs

end

inductive PyStmt : Type where
  | exprStmt : PyExpr → PyStmt
  | assign : String → PyExpr → PyStmt
  | passStmt : PyStmt

/-- A Python module: `ast.parse` returns a list of statements. -/
def PyModule : Type := List PyStmt

/-- The test `isinstance(node.func, ast.Name) and node.func.id == id`
performed by `PrintTransformer.visit_Call` (uv_magic.py line 151). -/
def isNameOf (id : String) : PyExpr → Bool
  | .name s => s == id
  | _ => false

mutual

/-- `PrintTransformer.visit_Call` (uv_magic.py lines 150-153): on every
`Call` node whose `func` is the bare name `print`, the `id` is rewritten to
`custom_print`; `generic_visit` then recurses into all children.  Since the
transformer has no `visit_Name`, a `Name` node is never changed on its own,
so renaming before visiting the (renamed) func equals renaming it here
directly. -/
def transformExpr : PyExpr → PyExpr
  | .name s => .name s
  | .strLit s => .strLit s
  | .numLit n => .numLit n
  | .call f args =>
      .call (if isNameOf "print" f then .name "custom_print" else transformExpr f)
        (transformArgs args)
  | .attr e s => .attr (transformExpr e) s

def transformArgs : PyArgs → PyArgs
  | .nil => .nil
  | .cons e rest => .cons (transformExpr e) (transformArgs rest)

end

/-- `generic_visit` recursion of the transformer through a statement. -/
def transformStmt : PyStmt → PyStmt
  | .exprStmt e => .exprStmt (transformExpr e)
  | .assign x e => .assign x (transformExpr e)
  | .passStmt => .passStmt

/-- `PrintTransformer().visit(tree)` on a whole module
(uv_magic.py line 156). -/
def transformModule (m : PyModule) : PyModule :=
  m.map transformStmt

mutual

/-- Number of direct calls to the bare name `id` in an expression:
`Call` nodes whose `func` is `Name(id)`. -/
def countCallsTo (id : String) : PyExpr → Nat
  | .name _ => 0
  | .strLit _ => 0
  | .numLit _ => 0
  | .call f args =>
      (if isNameOf id f then 1 else 0) + countCallsTo id f + countArgsCallsTo id args
  | .attr e _ => countCallsTo id e

def countArgsCallsTo (id : String) : PyArgs → Nat
  | .nil => 0
  | .cons e rest => countCallsTo id e + countArgsCallsTo id rest

end

def countStmtCallsTo (id : String) : PyStmt → Nat
  | .exprStmt e => countCallsTo id e
  | .assign _ e => countCallsTo id e
  | .passStmt => 0

def countModuleCallsTo (id : String) (m : PyModule) : Nat :=
  (m.map (countStmtCallsTo id)).sum

mutual

/-- String literals of an expression, in source order. -/
def stringLits : PyExpr → List String
  | .name _ => []
  | .strLit s => [s]
  | .numLit _ => []
  | .call f args => stringLits f ++ argsStringLits args
  | .attr e _ => stringLits e

def argsStringLits : PyArgs → List String
  | .nil => []
  | .cons e rest => stringLits e ++ argsStringLits rest

end

def stmtStringLits : PyStmt → List String
  | .exprStmt e => stringLits e
  | .assign _ e => stringLits e
  | .passStmt => []

def moduleStringLits (m : PyModule) : List String :=
  (m.map stmtStringLits).flatten

/-! ### Properties of the transformer -/

theorem eq_name_print_of_isNameOf (f : PyExpr)
    (h : isNameOf "print" f = true) : f = .name "print" := by
  cases f <;> simp_all [isNameOf]

theorem print_beq_custom_false : (("print" : String) == "custom_print") = false := by
  decide

theorem isNameOf_print_transformExpr (f : PyExpr)
    (h : isNameOf "print" f = false) :
    isNameOf "print" (transformExpr f) = false := by
  cases f <;> simp_all [transformExpr, isNameOf]

theorem isNameOf_custom_transformExpr (f : PyExpr)
    (h : isNameOf "print" f = false) :
    isNameOf "custom_print" (transformExpr f) = isNameOf "custom_print" f := by
  cases f <;> simp_all [transformExpr, isNameOf]

mutual

theorem countPrint_transformExpr :
    ∀ e : PyExpr, countCallsTo "print" (transformExpr e) = 0
  | .name _ => rfl
  | .strLit _ => rfl
  | .numLit _ => rfl
  | .call f args => by
      by_cases h : isNameOf "print" f = true
      · simp only [transformExpr, h, if_pos]
        simp [countCallsTo, isNameOf, countPrint_transformArgs args]
      · simp only [Bool.not_eq_true] at h
        simp only [transformExpr, h, Bool.false_eq_true, if_neg, not_false_iff]
        simp [countCallsTo, isNameOf_print_transformExpr f h,
          countPrint_transformExpr f, countPrint_transformArgs args]
  | .attr e _ => by
      simp [transformExpr, countCallsTo, countPrint_transformExpr e]

theorem countPrint_transformArgs :
    ∀ as : PyArgs, countArgsCallsTo "print" (transformArgs as) = 0
  | .nil => rfl
  | .cons e rest => by
      simp [transformArgs, countArgsCallsTo, countPrint_transformExpr e,
        countPrint_transformArgs rest]

end

mutual

theorem countCustom_transformExpr :
    ∀ e : PyExpr,
      countCallsTo "custom_print" (transformExpr e)
        = countCallsTo "custom_print" e + countCallsTo "print" e
  | .name _ => rfl
  | .strLit _ => rfl
  | .numLit _ => rfl
  | .call f args => by
      by_cases h : isNameOf "print" f = true
      · rw [eq_name_print_of_isNameOf f h]
        simp [transformExpr, countCallsTo, isNameOf, print_beq_custom_false,
          countCustom_transformArgs args]
        omega
      · simp only [Bool.not_eq_true] at h
        simp only [transformExpr, h, Bool.false_eq_true, if_neg, not_false_iff]
        simp [countCallsTo, isNameOf_custom_transformExpr f h,
          isNameOf_print_transformExpr f h, h,
          countCustom_transformExpr f, countCustom_transformArgs args]
        omega
  | .attr e _ => by
      simp [transformExpr, countCallsTo, countCustom_transformExpr e]

theorem countCustom_transformArgs :
    ∀ as : PyArgs,
      countArgsCallsTo "custom_print" (transformArgs as)
        = countArgsCallsTo "custom_print" as + countArgsCallsTo "print" as
  | .nil => rfl
  | .cons e rest => by
      simp [transformArgs, countArgsCallsTo, countCustom_transformExpr e,
        countCustom_transformArgs rest]
      omega

end

mutual

theorem transformExpr_id_of_no_print :
    ∀ e : PyExpr, countCallsTo "print" e = 0 → transformExpr e = e
  | .name _, _ => rfl
  | .strLit _, _ => rfl
  | .numLit _, _ => rfl
  | .call f args, h => by
      simp only [countCallsTo] at h
      have hf : isNameOf "print" f = false := by
        by_cases hc : isNameOf "print" f = true
        · simp [hc] at h
        · simpa using hc
      simp only [transformExpr, hf, Bool.false_eq_true, if_neg, not_false_iff]
      simp [hf] at h
      rw [transformExpr_id_of_no_print f (by omega),
        transformArgs_id_of_no_print args (by omega)]
  | .attr e s, h => by
      simp only [countCallsTo] at h
      simp [transformExpr, transformExpr_id_of_no_print e h]

theorem transformArgs_id_of_no_print :
    ∀ as : PyArgs, countArgsCallsTo "print" as = 0 → transformArgs as = as
  | .nil, _ => rfl
  | .cons e rest, h => by
      simp only [countArgsCallsTo] at h
      simp [transformArgs, transformExpr_id_of_no_print e (by omega),
        transformArgs_id_of_no_print rest (by omega)]

end

mutual

theorem stringLits_transformExpr :
    ∀ e : PyExpr, stringLits (transformExpr e) = stringLits e
  | .name _ => rfl
  | .strLit _ => rfl
  | .numLit _ => rfl
  | .call f args => by
      by_cases h : isNameOf "print" f = true
      · rw [eq_name_print_of_isNameOf f h]
        simp [transformExpr, isNameOf, stringLits, stringLits_transformArgs args]
      · simp only [Bool.not_eq_true] at h
        simp only [transformExpr, h, Bool.false_eq_true, if_neg, not_false_iff]
        simp [stringLits, stringLits_transformExpr f,
          stringLits_transformArgs args]
  | .attr e _ => by
      simp [transformExpr, stringLits, stringLits_transformExpr e]

theorem stringLits_transformArgs :
    ∀ as : PyArgs, argsStringLits (transformArgs as) = argsStringLits as
  | .nil => rfl
  | .cons e rest => by
      simp [transformArgs, argsStringLits, stringLits_transformExpr e,
        stringLits_transformArgs rest]

end

theorem countPrint_transformStmt (s : PyStmt) :
    countStmtCallsTo "print" (transformStmt s) = 0 := by
  cases s <;> simp [transformStmt, countStmtCallsTo, countPrint_transformExpr]

theorem countCustom_transformStmt (s : PyStmt) :
    countStmtCallsTo "custom_print" (transformStmt s)
      = countStmtCallsTo "custom_print" s + countStmtCallsTo "print" s := by
  cases s <;> simp [transformStmt, countStmtCallsTo, countCustom_transformExpr]

theorem transformStmt_id_of_no_print (s : PyStmt)
    (h : countStmtCallsTo "print" s = 0) : transformStmt s = s := by
  cases s <;> simp_all [transformStmt, countStmtCallsTo,
    transformExpr_id_of_no_print]

theorem stringLits_transformStmt (s : PyStmt) :
    stmtStringLits (transformStmt s) = stmtStringLits s := by
  cases s <;> simp [transformStmt, stmtStringLits, stringLits_transformExpr]

theorem countPrint_transformModule (m : PyModule) :
    countModuleCallsTo "print" (transformModule m) = 0 := by
  induction m with
  | nil => rfl
  | cons s rest ih =>
      simp [transformModule, countModuleCallsTo, countPrint_transformStmt,
        List.map_cons] at *
      simpa using ih

theorem countCustom_transformModule (m : PyModule) :
    countModuleCallsTo "custom_print" (transformModule m)
      = countModuleCallsTo "custom_print" m + countModuleCallsTo "print" m := by
  induction m with
  | nil => rfl
  | cons s rest ih =>
      simp only [transformModule, countModuleCallsTo, List.map_cons,
        List.sum_cons, List.map_map] at *
      rw [countCustom_transformStmt]
      omega

theorem transformModule_id_of_no_print (m : PyModule)
    (h : countModuleCallsTo "print" m = 0) : transformModule m = m := by
  induction m with
  | nil => rfl
  | cons s rest ih =>
      simp only [countModuleCallsTo, List.map_cons, List.sum_cons] at h
      have hs : countStmtCallsTo "print" s = 0 := by omega
      have hr : countModuleCallsTo "print" rest = 0 := by
        simp [countModuleCallsTo]; omega
      have htail := ih hr
      simp only [transformModule] at htail ⊢
      rw [List.map_cons, transformStmt_id_of_no_print s hs, htail]

theorem stringLits_transformModule (m : PyModule) :
    moduleStringLits (transformModule m) = moduleStringLits m := by
  induction m with
  | nil => rfl
  | cons s rest ih =>
      simp only [transformModule, moduleStringLits, List.map_cons,
        List.flatten_cons] at *
      rw [stringLits_transformStmt, ih]

/-! ## Unparsing (`ast.unparse`)

A printer for the AST fragment: statements joined by newlines (no trailing
newline, so the empty module prints as the empty string, as with
`ast.unparse(ast.parse(""))`), string literals in Python `repr` form. -/

/-- Python `repr` escaping of one character inside a single-quoted string. -/
def pyReprEscChar (c : Char) : String :=
  if c = '\\' then "\\\\"
  else if c.toNat = 39 then "\\\x27"
  else if c = '\n' then "\\n"
  else if c = '\r' then "\\r"
  else if c = '\t' then "\\t"
  else String.singleton c

/-- Python `repr` of a string, single-quoted form. -/
def pyReprStr (s : String) : String :=
  "\x27" ++ String.join (s.toList.map pyReprEscChar) ++ "\x27"

mutual

def exprStr : PyExpr → String
  | .name s => s
  | .strLit s => pyReprStr s
  | .numLit n => toString n
  | .call f args => exprStr f ++ "(" ++ String.intercalate ", " (argsStrList args) ++ ")"
  | .attr e s => exprStr e ++ "." ++ s

def argsStrList : PyArgs → List String
  | .nil => []
  | .cons e rest => exprStr e :: argsStrList rest

end

def stmtStr : PyStmt → String
  | .exprStmt e => exprStr e
  | .assign x e => x ++ " = " ++ exprStr e
  | .passStmt => "pass"

/-- `ast.unparse` of a module (uv_magic.py line 158). -/
def unparseModule (m : PyModule) : String :=
  String.intercalate "\n" (m.map stmtStr)

/-- `replace_print_statements` (uv_magic.py lines 147-159): parse, rewrite
`print` calls, unparse.  The argument carries the outcome of `ast.parse` on
the raw cell text: a `SyntaxError` (or, for a `None` cell, `TypeError`)
propagates out unchanged. -/
def replace_print_statements (cell : Except String PyModule) : Except String String :=
  match cell with
  | .error e => .error e
  | .ok m => .ok (unparseModule (transformModule m))

/-! ## JSON serialization (`json.dumps`) -/

/-- Lowercase hex digit. -/
def hexDigit (n : Nat) : Char :=
  if n < 10 then Char.ofNat (48 + n) else Char.ofNat (87 + n)

/-- Four-digit lowercase hex, as in `\uXXXX` escapes. -/
def hex4 (n : Nat) : String :=
  String.mk [hexDigit (n / 4096 % 16), hexDigit (n / 256 % 16),
    hexDigit (n / 16 % 16), hexDigit (n % 16)]

/-- `json.dumps` escaping of one character (default `ensure_ascii=True`):
`"` and `\` are backslash-escaped, common control characters use the short
forms, every other character outside the printable ASCII range `0x20-0x7e`
becomes `\uXXXX` (a surrogate pair above `0xFFFF`). -/
def jsonEscChar (c : Char) : String :=
  if c = '"' then "\\\""
  else if c = '\\' then "\\\\"
  else if c = '\n' then "\\n"
  else if c = '\r' then "\\r"
  else if c = '\t' then "\\t"
  else if c.toNat = 8 then "\\b"
  else if c.toNat = 12 then "\\f"
  else if 32 ≤ c.toNat ∧ c.toNat ≤ 126 then String.singleton c
  else if c.toNat < 65536 then "\\u" ++ hex4 c.toNat
  else
    "\\u" ++ hex4 (55296 + (c.toNat - 65536) / 1024)
      ++ "\\u" ++ hex4 (56320 + (c.toNat - 65536) % 1024)

/-- `json.dumps` of a string. -/
def jsonStr (s : String) : String :=
  "\"" ++ String.join (s.toList.map jsonEscChar) ++ "\""

/-- `json.dumps` of a list of strings (uv_magic.py line 70): elements in
order, separated by `", "`. -/
def jsonDumpsList (l : List String) : String :=
  "[" ++ String.intercalate ", " (l.map jsonStr) ++ "]"

/-- `json.dumps({"stdout": o, "stderr": e})`, the harness's final result
line (generated script, uv_magic.py lines 139-140). -/
def jsonDumpsResult (o e : String) : String :=
  "\x7b\"stdout\": " ++ jsonStr o ++ ", \"stderr\": " ++ jsonStr e ++ "\x7d"

/-! ## Argument parsing (`parse_arguments`) -/

/-- Python truthiness of an optional string (`if x:`): `None` and the empty
string are falsy. -/
def pyTruthy : Option String → Bool
  | none => false
  | some s => s != ""

/-- Is the first list an initial segment of the second? -/
def listIsInit : List Char → List Char → Bool
  | [], _ => true
  | _ :: _, [] => false
  | p :: ps, c :: cs => p == c && listIsInit ps cs

/-- Python `s.startswith(pre)` (kernel-reducible model of the library
routine). -/
def startswith (s pre : String) : Bool :=
  listIsInit pre.toList s.toList

/-- The operator tuple of uv_magic.py line 43. -/
def constraintOps : List String := ["==", ">=", "<=", ">", "<", "~=", "!="]

/-- Normalization of `python_spec` (uv_magic.py lines 42-44): prefix `==`
unless the token already starts with a comparison operator. -/
def normalizePythonSpec (s : String) : String :=
  if constraintOps.any (fun op => startswith s op) then s else "==" ++ s

/-- `part.split('=', 1)[1]`: everything after the first `=`. -/
def afterFirstEq (s : String) : String :=
  String.mk ((s.toList.dropWhile (fun c => c != '=')).drop 1)

/-- The result dictionary of `parse_arguments`: `python_spec` (normalized
constraint), `pythonVersion` (the `--python` value), `withDeps` (the
`--with` dependency list).  A `none` field is an absent dictionary key. -/
structure Args where
  python_spec : Option String := none
  pythonVersion : Option String := none
  withDeps : Option (List String) := none
  deriving Repr, DecidableEq

/-- The `while i < len(parts)` loop of `parse_arguments` (uv_magic.py lines
37-60).  `python=` tokens set the normalized constraint; `--python` with a
successor consumes it; `--with` with a successor collects tokens until the
next `--`-prefixed token (which stays in the stream); anything else — or a
trailing `--python`/`--with` with no successor — is skipped. -/
def parseArgsLoop : Args → List String → Args
  | a, [] => a
  | a, [p] =>
      if startswith p "python=" then
        { a with python_spec := some (normalizePythonSpec (afterFirstEq p)) }
      else a
  | a, p :: q :: rest =>
      if startswith p "python=" then
        parseArgsLoop { a with python_spec := some (normalizePythonSpec (afterFirstEq p)) }
          (q :: rest)
      else if p = "--python" then
        parseArgsLoop { a with pythonVersion := some q } rest
      else if p = "--with" then
        parseArgsLoop { a with withDeps := some ((q :: rest).takeWhile (fun t => !startswith t "--")) }
          ((q :: rest).dropWhile (fun t => !startswith t "--"))
      else parseArgsLoop a (q :: rest)
termination_by _ l => l.length
decreasing_by
  all_goals simp only [List.length_cons]
  · omega
  · omega
  · have h := List.IsSuffix.length_le
      (List.dropWhile_suffix (l := q :: rest) (p := fun t => !startswith t "--"))
    simp only [List.length_cons] at h
    omega
  · omega

/-- `parse_arguments` (uv_magic.py lines 33-61), over the token list
produced by `shlex.split(line)`. -/
def parse_arguments (parts : List String) : Args :=
  parseArgsLoop {} parts

/-! ## Script synthesis (`build_script`) -/

/-- The inline-metadata header lines (uv_magic.py lines 66-72): the sentinel
line, the optional `requires-python` line (emitted only when `python_spec`
is truthy), the dependency line, the closing sentinel. -/
def headerLines (python_spec : Option String) (dependencies : List String) : List String :=
  ["# /// script"]
    ++ (if pyTruthy python_spec then
          ["# requires-python = \"" ++ python_spec.getD "" ++ "\""] else [])
    ++ ["# dependencies = " ++ jsonDumpsList dependencies, "# ///"]

/-- Split a character list at every occurrence of `sep` (Python
`str.split(sep)`: n separators give n+1 segments). -/
def splitChar (sep : Char) : List Char → List (List Char)
  | [] => [[]]
  | c :: rest =>
    match splitChar sep rest with
    | [] => [[]]
    | cur :: done => if c = sep then [] :: cur :: done else (c :: cur) :: done

/-- `textwrap.indent(code, '    ')` (uv_magic.py line 78): prefix four
spaces to every line that contains a non-whitespace character. -/
def indent4 (s : String) : String :=
  String.intercalate "\n"
    ((splitChar '\n' s.toList).map
      (fun l => if l.any (fun c => !c.isWhitespace) then "    " ++ String.mk l
        else String.mk l))

/-- Python `str` of a bool, as substituted for `{use_matplotlib}` by
`.format`. -/
def pyBoolStr (b : Bool) : String := if b then "True" else "False"

/-- The script body template (uv_magic.py lines 81-141) after
`.format(use_matplotlib=..., cell_code_indented=...)`. -/
def scriptBody (use_matplotlib : Bool) (cellCodeIndented : String) : String :=
  "import sys\n" ++
  "from io import StringIO, BytesIO\n" ++
  "import json\n" ++
  "import traceback\n" ++
  "import base64\n" ++
  "\n" ++
  "class OutputCapture:\n" ++
  "    def __init__(self):\n" ++
  "        self.outputs = []\n" ++
  "\n" ++
  "    def write(self, s):\n" ++
  "        self.outputs.append(s)\n" ++
  "\n" ++
  "    def flush(self):\n" ++
  "        pass\n" ++
  "\n" ++
  "    def getvalue(self):\n" ++
  "        return \x27\x27.join(self.outputs)\n" ++
  "\n" ++
  "output_capture = OutputCapture()\n" ++
  "error_capture = OutputCapture()\n" ++
  "\n" ++
  "sys.stdout = output_capture\n" ++
  "sys.stderr = error_capture\n" ++
  "\n" ++
  "def custom_print(*args, **kwargs):\n" ++
  "    print(\x27<div class=\"output-text\">\x27, end=\x27\x27)\n" ++
  "    print(*args, **kwargs)\n" ++
  "    print(\x27</div>\x27, end=\x27\x27)\n" ++
  "\n" ++
  "try:\n" ++
  "    if " ++ pyBoolStr use_matplotlib ++ ":\n" ++
  "        import matplotlib\n" ++
  "        matplotlib.use(\x27Agg\x27)\n" ++
  "        import matplotlib.pyplot as plt\n" ++
  "\n" ++
  cellCodeIndented ++ "\n" ++
  "\n" ++
  "    if " ++ pyBoolStr use_matplotlib ++ ":\n" ++
  "        for i in plt.get_fignums():\n" ++
  "            fig = plt.figure(i)\n" ++
  "            buf = BytesIO()\n" ++
  "            fig.savefig(buf, format=\x27png\x27)\n" ++
  "            buf.seek(0)\n" ++
  "            img_str = base64.b64encode(buf.getvalue()).decode(\x27utf-8\x27)\n" ++
  "            print(f\x27<div class=\"output-plot\"><img src=\"data:image/png;base64,\x7bimg_str\x7d\"></div>\x27)\n" ++
  "        plt.close(\x27all\x27)\n" ++
  "\n" ++
  "except Exception as e:\n" ++
  "    print(f\x27<pre style=\"color:red;\">An error occurred: \x7bstr(e)\x7d\x27)\n" ++
  "    print(\"Traceback:\")\n" ++
  "    traceback.print_exc()\n" ++
  "    print(\x27</pre>\x27)\n" ++
  "\n" ++
  "sys.stdout = sys.__stdout__\n" ++
  "sys.stderr = sys.__stderr__\n" ++
  "\n" ++
  "result = \x7b\"stdout\": output_capture.getvalue(), \"stderr\": error_capture.getvalue()\x7d\n" ++
  "print(json.dumps(result))\n"

/-- `build_script` (uv_magic.py lines 63-145): header, then the body with
the rewritten, four-space-indented user code spliced into the harness.  A
parse failure from `replace_print_statements` propagates (the source has no
handler for it). -/
def build_script (cell : Except String PyModule) (python_spec : Option String)
    (dependencies : List String) (use_matplotlib : Bool) : Except String String :=
  match replace_print_statements cell with
  | .error e => .error e
  | .ok cellCode =>
      .ok (String.intercalate "\n" (headerLines python_spec dependencies)
        ++ "\n" ++ scriptBody use_matplotlib (indent4 cellCode))

/-! ## The Isolated Runner (`execute_script`)

The runner's effects are made explicit: the filesystem is the list of
existing paths, the behaviour of `subprocess.run` is an outcome parameter
(it completed with an exit status, stdout and stderr — `check=True` turns a
non-zero status into a caught `CalledProcessError` — or it raised some other
exception, e.g. `FileNotFoundError` when the `uv` executable is missing),
and anything shown via `display(HTML(...))` is accumulated in a list. -/

/-- What `subprocess.run(cmd, capture_output=True, text=True, check=True,
env=env)` did. -/
inductive RunBehavior : Type where
  | completes : Nat → String → String → RunBehavior
  | raises : String → RunBehavior
  deriving Repr, DecidableEq

/-- Result of one `execute_script` call: the return value (`Except.error`
is an exception propagating out of `execute_script`; `Except.ok none` is
the `return None` failure report, `Except.ok (some out)` the child's raw
stdout), the filesystem after the `finally` block, the HTML blocks
displayed, and the environment handed to the child. -/
structure ExecOutcome : Type where
  ret : Except String (Option String)
  fs : List (String × String)
  displayed : List String
  childEnv : List (String × String)
  cmd : List String
  deriving Repr

/-- `env = os.environ.copy(); env.pop('MPLBACKEND', None)` (uv_magic.py
lines 174-175). -/
def scrubEnv (env : List (String × String)) : List (String × String) :=
  env.filter (fun kv => kv.1 != "MPLBACKEND")

/-- Environment lookup (`env[k]` / dict membership). -/
def lookupEnv : List (String × String) → String → Option String
  | [], _ => none
  | kv :: rest, k => if kv.1 = k then some kv.2 else lookupEnv rest k

/-- Python `a or b` on strings: `a` unless it is empty (uv_magic.py line
179, `e.stderr or e.stdout`). -/
def pyOrStr (a b : String) : String :=
  if a != "" then a else b

/-- The command list built at uv_magic.py lines 168-171. -/
def buildCmd (python_version : Option String) (tempPath : String) : List String :=
  ["uv", "run"]
    ++ (if pyTruthy python_version then ["--python", python_version.getD ""] else [])
    ++ [tempPath]

/-- The HTML failure report of uv_magic.py line 180. -/
def uvErrorHtml (msg : String) : String :=
  "<pre style=\x27color:red;\x27>Error running uv:\n" ++ msg ++ "</pre>"

/-- `os.unlink(path)`: remove the file at `path` (the filesystem maps each
existing path to its content). -/
def unlinkPath (fs : List (String × String)) (path : String) : List (String × String) :=
  fs.eraseP (fun f => f.1 == path)

/-- Does a file exist at `path`? -/
def pathExists (fs : List (String × String)) (path : String) : Bool :=
  fs.any (fun f => f.1 == path)

/-- `execute_script` (uv_magic.py lines 161-183).  A temporary file at
`tempPath` is created (`delete=False`), chmod-ed `0o600` and written; the
child runs in the scrubbed environment; `CalledProcessError` (non-zero exit
under `check=True`) is caught, displayed and turned into `return None`; any
other exception propagates; the `finally` block unlinks the temporary file
on every path. -/
def execute_script (fs : List (String × String)) (tempPath : String)
    (scriptContent : String) (python_version : Option String)
    (parentEnv : List (String × String)) (behavior : RunBehavior) : ExecOutcome :=
  let fsAfterWrite := (tempPath, scriptContent) :: fs
  let env := scrubEnv parentEnv
  let cmd := buildCmd python_version tempPath
  match behavior with
  | .completes 0 stdout _ =>
      { ret := .ok (some stdout), fs := unlinkPath fsAfterWrite tempPath,
        displayed := [], childEnv := env, cmd := cmd }
  | .completes (_ + 1) stdout stderr =>
      { ret := .ok none, fs := unlinkPath fsAfterWrite tempPath,
        displayed := [uvErrorHtml (pyOrStr stderr stdout)], childEnv := env, cmd := cmd }
  | .raises exn =>
      { ret := .error exn, fs := unlinkPath fsAfterWrite tempPath,
        displayed := [], childEnv := env, cmd := cmd }

/-! ## The generated harness, run inside the child

Semantics of the script body emitted by `build_script`, as a function of
the user code's effects: the text it wrote to the redirected stdout
(`output_capture`), the text it wrote to the redirected stderr
(`error_capture`), and its optional uncaught exception, given as the pair
`(str(e), text printed by traceback.print_exc())`.  `traceback.print_exc()`
writes to `sys.stderr`, which at that point is still `error_capture`.  On
the no-exception path with plotting enabled, the figure loop appends one
plot block per open figure (`figs` lists their base64 payloads). -/

structure UserRun : Type where
  out : String
  err : String
  exc : Option (String × String)
  deriving Repr, DecidableEq

/-- What the child process produced: the two accumulators' final contents,
the process exit status, and the single JSON result line printed to the real
stdout after the streams are restored. -/
structure ChildResult : Type where
  stdoutAcc : String
  stderrAcc : String
  exitCode : Nat
  finalLine : String
  deriving Repr, DecidableEq

/-- One `<div class="output-plot">` block (generated script, uv_magic.py
line 127), followed by the newline `print` appends. -/
def plotDiv (b64 : String) : String :=
  "<div class=\"output-plot\"><img src=\"data:image/png;base64," ++ b64 ++ "\"></div>\n"

/-- The harness (generated script, uv_magic.py lines 101-140).  User-code
exceptions are caught by `except Exception`: the message block and the
`Traceback:` heading are printed to the redirected stdout, the traceback
text itself goes to the redirected stderr, the figure loop is skipped, and
the process still ends by printing the JSON result line and exiting 0. -/
def harnessRun (user : UserRun) (use_matplotlib : Bool) (figs : List String) :
    ChildResult :=
  match user.exc with
  | none =>
      let sout := user.out
        ++ (if use_matplotlib then String.join (figs.map plotDiv) else "")
      { stdoutAcc := sout, stderrAcc := user.err, exitCode := 0,
        finalLine := jsonDumpsResult sout user.err }
  | some (msg, tb) =>
      let sout := user.out
        ++ "<pre style=\"color:red;\">An error occurred: " ++ msg ++ "\n"
        ++ "Traceback:\n"
        ++ "</pre>\n"
      let serr := user.err ++ tb
      { stdoutAcc := sout, stderrAcc := serr, exitCode := 0,
        finalLine := jsonDumpsResult sout serr }

/-! ## JSON values and `json.loads`

An executable model of the Python `json` decoder, used by
`process_output`.  Numbers are kept as their lexemes (no floating-point
arithmetic is performed on them anywhere in the source).  Deviations from
CPython, none of which the claims touch: surrogate-pair escapes for lone
surrogates and code points Lean's `Char` cannot hold collapse to `NUL`, and
numeric truthiness is judged from the mantissa lexeme. -/

inductive JValue : Type where
  | null : JValue
  | bool : Bool → JValue
  | num : String → JValue
  | str : String → JValue
  | arr : List JValue → JValue
  | obj : List (String × JValue) → JValue

/-- JSON whitespace. -/
def jsonWs (c : Char) : Bool :=
  c = ' ' || c = '\t' || c = '\n' || c = '\r'

def skipWs (cs : List Char) : List Char :=
  cs.dropWhile jsonWs

/-- Value of a hex digit. -/
def hexVal (c : Char) : Option Nat :=
  if '0' ≤ c ∧ c ≤ '9' then some (c.toNat - 48)
  else if 'a' ≤ c ∧ c ≤ 'f' then some (c.toNat - 87)
  else if 'A' ≤ c ∧ c ≤ 'F' then some (c.toNat - 55)
  else none

/-- JSON string body parser (after the opening quote): standard escapes,
`\uXXXX`, raw control characters rejected. -/
def pJStringAux : List Char → List Char → Option (String × List Char)
  | _, [] => none
  | acc, c :: rest =>
    if c = '"' then some (String.mk acc.reverse, rest)
    else if c = '\\' then
      match rest with
      | [] => none
      | e :: rest2 =>
        if e = '"' then pJStringAux ('"' :: acc) rest2
        else if e = '\\' then pJStringAux ('\\' :: acc) rest2
        else if e = '/' then pJStringAux ('/' :: acc) rest2
        else if e = 'b' then pJStringAux (Char.ofNat 8 :: acc) rest2
        else if e = 'f' then pJStringAux (Char.ofNat 12 :: acc) rest2
        else if e = 'n' then pJStringAux ('\n' :: acc) rest2
        else if e = 'r' then pJStringAux ('\r' :: acc) rest2
        else if e = 't' then pJStringAux ('\t' :: acc) rest2
        else if e = 'u' then
          match rest2 with
          | h1 :: h2 :: h3 :: h4 :: rest3 =>
            match hexVal h1, hexVal h2, hexVal h3, hexVal h4 with
            | some a, some b, some c2, some d =>
                pJStringAux (Char.ofNat (a * 4096 + b * 256 + c2 * 16 + d) :: acc) rest3
            | _, _, _, _ => none
          | _ => none
        else none
    else if c.toNat < 32 then none
    else pJStringAux (c :: acc) rest

/-- One or more decimal digits. -/
def takeDigits (cs : List Char) : List Char × List Char :=
  (cs.takeWhile Char.isDigit, cs.dropWhile Char.isDigit)

/-- JSON number grammar: `-?(0|[1-9][0-9]*)(\.[0-9]+)?([eE][-+]?[0-9]+)?`,
returning the lexeme. -/
def parseNumber (cs : List Char) : Option (String × List Char) :=
  let (sign, cs1) :=
    match cs with
    | '-' :: r => (['-'], r)
    | _ => (([] : List Char), cs)
  match cs1 with
  | [] => none
  | d :: _ =>
    if !d.isDigit then none
    else
      let (intPart, cs2) :=
        match cs1 with
        | '0' :: r => (['0'], r)
        | _ => takeDigits cs1
      let (fracPart, cs3) :=
        match cs2 with
        | '.' :: r =>
            let (ds, r2) := takeDigits r
            if ds = [] then ((none : Option (List Char)), cs2)
            else (some ('.' :: ds), r2)
        | _ => (none, cs2)
      match fracPart with
      | none =>
        match cs2 with
        | '.' :: _ => none
        | _ =>
          let (expPart, cs4) := parseExp cs2
          match expPart with
          | none =>
            match cs2 with
            | 'e' :: _ => none
            | 'E' :: _ => none
            | _ => some (String.mk (sign ++ intPart), cs2)
          | some es => some (String.mk (sign ++ intPart ++ es), cs4)
      | some fs =>
        let (expPart, cs4) := parseExp cs3
        match expPart with
        | none =>
          match cs3 with
          | 'e' :: _ => none
          | 'E' :: _ => none
          | _ => some (String.mk (sign ++ intPart ++ fs), cs3)
        | some es => some (String.mk (sign ++ intPart ++ fs ++ es), cs4)
where
  parseExp (cs : List Char) : Option (List Char) × List Char :=
    match cs with
    | e :: r =>
      if e = 'e' || e = 'E' then
        let (sgn, r1) :=
          match r with
          | '+' :: r2 => (['+'], r2)
          | '-' :: r2 => (['-'], r2)
          | _ => (([] : List Char), r)
        let (ds, r2) := takeDigits r1
        if ds = [] then (none, cs) else (some (e :: sgn ++ ds), r2)
      else (none, cs)
    | [] => (none, cs)

mutual

/-- The JSON value parser (fuel-indexed; `jsonLoads` supplies ample fuel). -/
def pJValue : Nat → List Char → Option (JValue × List Char)
  | 0, _ => none
  | fuel + 1, cs =>
    match skipWs cs with
    | [] => none
    | c :: rest =>
      if c = '"' then
        match pJStringAux [] rest with
        | some (s, r) => some (.str s, r)
        | none => none
      else if c = '[' then
        match skipWs rest with
        | ']' :: r => some (.arr [], r)
        | cs2 => pJElems fuel cs2 []
      else if c = Char.ofNat 123 then
        match skipWs rest with
        | d :: r =>
            if d = Char.ofNat 125 then some (.obj [], r)
            else pJMembers fuel (d :: r) []
        | [] => none
      else if c = 't' then
        match rest with
        | 'r' :: 'u' :: 'e' :: r => some (.bool true, r)
        | _ => none
      else if c = 'f' then
        match rest with
        | 'a' :: 'l' :: 's' :: 'e' :: r => some (.bool false, r)
        | _ => none
      else if c = 'n' then
        match rest with
        | 'u' :: 'l' :: 'l' :: r => some (.null, r)
        | _ => none
      else
        match parseNumber (c :: rest) with
        | some (lex, r) => some (.num lex, r)
        | none => none

/-- Array elements after `[` (at least one element). -/
def pJElems : Nat → List Char → List JValue → Option (JValue × List Char)
  | 0, _, _ => none
  | fuel + 1, cs, acc =>
    match pJValue fuel cs with
    | none => none
    | some (v, r) =>
      match skipWs r with
      | ',' :: r2 => pJElems fuel r2 (v :: acc)
      | ']' :: r2 => some (.arr (v :: acc).reverse, r2)
      | _ => none

/-- Object members after `{` (at least one member). -/
def pJMembers : Nat → List Char → List (String × JValue) →
    Option (JValue × List Char)
  | 0, _, _ => none
  | fuel + 1, cs, acc =>
    match skipWs cs with
    | '"' :: r =>
      match pJStringAux [] r with
      | some (k, r2) =>
        match skipWs r2 with
        | ':' :: r3 =>
          match pJValue fuel r3 with
          | some (v, r4) =>
            match skipWs r4 with
            | ',' :: r5 => pJMembers fuel r5 ((k, v) :: acc)
            | d :: r5 =>
                if d = Char.ofNat 125 then some (.obj ((k, v) :: acc).reverse, r5)
                else none
            | [] => none
          | none => none
        | _ => none
      | none => none
    | _ => none

end

/-- `json.loads`: parse the whole string, requiring only whitespace after
the value. -/
def jsonLoads (s : String) : Option JValue :=
  match pJValue (2 * s.length + 2) s.toList with
  | some (v, rest) => if skipWs rest = [] then some v else none
  | none => none

/-! ## Python `str`/`repr` of decoded values -/

mutual

/-- Python `repr` of a decoded JSON value. -/
def pyReprJ : JValue → String
  | .null => "None"
  | .bool true => "True"
  | .bool false => "False"
  | .num lex => lex
  | .str s => pyReprStr s
  | .arr vs => "[" ++ String.intercalate ", " (pyReprList vs) ++ "]"
  | .obj kvs => "\x7b" ++ String.intercalate ", " (pyReprMembers kvs) ++ "\x7d"

def pyReprList : List JValue → List String
  | [] => []
  | v :: rest => pyReprJ v :: pyReprList rest

def pyReprMembers : List (String × JValue) → List String
  | [] => []
  | (k, v) :: rest => (pyReprStr k ++ ": " ++ pyReprJ v) :: pyReprMembers rest

end

/-- Python `str` of a decoded JSON value (as an f-string or `print`
renders it): differs from `repr` only on top-level strings. -/
def pyStrJ : JValue → String
  | .str s => s
  | v => pyReprJ v

/-- Python dict lookup with default, `output.get(k, '')`: `json.loads`
builds the dict in document order, so a duplicated key keeps its last
occurrence. -/
def dictGet : List (String × JValue) → String → Option JValue
  | [], _ => none
  | kv :: rest, k =>
    match dictGet rest k with
    | some v => some v
    | none => if kv.1 = k then some kv.2 else none

/-- Python truthiness of a decoded JSON value (`if stderr:`). -/
def jTruthy : JValue → Bool
  | .null => false
  | .bool b => b
  | .num lex => (lex.toList.takeWhile (fun c => c != 'e' && c != 'E')).any
      (fun c => c.isDigit && c != '0')
  | .str s => s != ""
  | .arr vs => !vs.isEmpty
  | .obj kvs => !kvs.isEmpty

/-! ## The Result Reconstructor (`process_output`) -/

/-- One observable presentation action: `display(HTML(...))` or a `print`
line. -/
inductive DisplayAct : Type where
  | html : String → DisplayAct
  | textLine : String → DisplayAct
  deriving Repr, DecidableEq

/-- The `display(HTML(f-string))` payload of uv_magic.py lines 195-201. -/
def outputHtml (stdoutVal : JValue) : String :=
  "\n            <style>\n            .output-text \x7b white-space: pre-wrap; \x7d\n            .output-plot \x7b text-align: center; \x7d\n            </style>\n            "
    ++ pyStrJ stdoutVal ++ "\n            "

/-- `process_output` (uv_magic.py lines 185-207).  `Except.error` models an
exception escaping `process_output`: the only handler is for
`json.JSONDecodeError`, so when the text parses to a non-object the
attribute lookup `output.get` raises `AttributeError` uncaught. -/
def process_output (output_json : Option String) : Except String (List DisplayAct) :=
  match output_json with
  | none => .ok []
  | some s =>
    if s == "" then .ok []
    else
      match jsonLoads s with
      | none => .ok [.textLine "Failed to decode JSON. Raw output:", .textLine s]
      | some (.obj kvs) =>
          let stdout := (dictGet kvs "stdout").getD (.str "")
          let stderr := (dictGet kvs "stderr").getD (.str "")
          .ok ([.html (outputHtml stdout)]
            ++ (if jTruthy stderr then
                  [.textLine "\nSTDERR:", .textLine (pyStrJ stderr)] else []))
      | some _ => .error "AttributeError"

/-! ## Helper lemmas -/

theorem unlinkPath_cons_self (fs : List (String × String)) (t c : String) :
    unlinkPath ((t, c) :: fs) t = fs := by
  simp [unlinkPath, List.eraseP_cons]

theorem execute_script_childEnv (fs : List (String × String)) (t c : String)
    (pv : Option String) (env : List (String × String)) (b : RunBehavior) :
    (execute_script fs t c pv env b).childEnv = scrubEnv env := by
  cases b with
  | completes n out err => cases n <;> rfl
  | raises e => rfl

theorem lookupEnv_scrubEnv_removed (env : List (String × String)) :
    lookupEnv (scrubEnv env) "MPLBACKEND" = none := by
  induction env with
  | nil => rfl
  | cons kv rest ih =>
      by_cases h : kv.1 = "MPLBACKEND"
      · simp [scrubEnv, List.filter_cons, h] at *
        exact ih
      · simp [scrubEnv, List.filter_cons, h, lookupEnv] at *
        exact ih

theorem lookupEnv_scrubEnv_other (env : List (String × String)) (k : String)
    (hk : k ≠ "MPLBACKEND") :
    lookupEnv (scrubEnv env) k = lookupEnv env k := by
  induction env with
  | nil => rfl
  | cons kv rest ih =>
      by_cases h : kv.1 = "MPLBACKEND"
      · simp [scrubEnv, List.filter_cons, h, lookupEnv, Ne.symm hk] at *
        exact ih
      · simp [scrubEnv, List.filter_cons, h, lookupEnv] at *
        by_cases he : kv.1 = k <;> simp [he, ih]

/-! ## The claims -/

/-- C1: for every synthesized program and every run outcome of the Isolated
Runner — child exits zero, child exits non-zero, or an exception is raised
during the run — the temporary file holding the program does not exist on
disk after `execute_script` returns: the `finally` block removes it on
every exit path. -/
theorem c1_temp_file_removed (fs : List (String × String))
    (tempPath content : String) (pv : Option String)
    (env : List (String × String)) (b : RunBehavior)
    (h : pathExists fs tempPath = false) :
    pathExists (execute_script fs tempPath content pv env b).fs tempPath = false := by
  cases b with
  | completes n out err =>
      cases n with
      | zero => simpa [execute_script, unlinkPath_cons_self] using h
      | succ k => simpa [execute_script, unlinkPath_cons_self] using h
  | raises e => simpa [execute_script, unlinkPath_cons_self] using h

theorem c1_temp_file_removed_witness :
    pathExists
      (execute_script [("/home/user/nb.ipynb", "nb")] "/tmp/tmpab12.py" "# /// script"
        none [] (RunBehavior.completes 1 "" "error: failed")).fs
      "/tmp/tmpab12.py" = false :=
  c1_temp_file_removed [("/home/user/nb.ipynb", "nb")] "/tmp/tmpab12.py" "# /// script"
    none [] (RunBehavior.completes 1 "" "error: failed") (by decide)

/-- C2 counterexample: when `subprocess.run` raises an exception that is
not `CalledProcessError` — as happens when the external `uv` tool is
missing (`FileNotFoundError`) — `execute_script` does not return a
`Failure` outcome (`Except.ok none`): the exception propagates past the
runner's boundary, refuting the claim that every runner failure, including
the external tool being missing, is reported as a Failure and never raises. -/
theorem c2_counterexample :
    (execute_script [] "/tmp/tmpab12.py" "print(1)" none []
        (RunBehavior.raises "FileNotFoundError")).ret
      = Except.error "FileNotFoundError" := rfl

/-- C2 (amended): a child that exits with non-zero status yields the
Failure outcome `return None`, with the diagnostic HTML built from the
child's stderr, falling back to its stdout when stderr is empty — the
caught `CalledProcessError` never raises past `execute_script`; but an
exception raised by the process launch itself, such as `FileNotFoundError`
when the external tool is missing, propagates past the runner (the
temporary file is still removed). -/
theorem c2_nonzero_failure (fs : List (String × String))
    (tempPath content : String) (pv : Option String)
    (env : List (String × String)) (n : Nat) (out err exn : String) :
    ((execute_script fs tempPath content pv env
        (RunBehavior.completes (n + 1) out err)).ret = Except.ok none
      ∧ (execute_script fs tempPath content pv env
          (RunBehavior.completes (n + 1) out err)).displayed
        = [uvErrorHtml (pyOrStr err out)]
      ∧ pyOrStr err out = (if err = "" then out else err))
    ∧ (execute_script fs tempPath content pv env
        (RunBehavior.raises exn)).ret = Except.error exn := by
  refine ⟨⟨rfl, rfl, ?_⟩, rfl⟩
  by_cases h : err = "" <;> simp [pyOrStr, h]

/-- C8: the child process environment is a copy of the parent's ambient
environment with exactly the variable `MPLBACKEND` removed; every other
variable passes through unchanged. -/
theorem c8_scrubbed_environment (fs : List (String × String))
    (tempPath content : String) (pv : Option String)
    (parentEnv : List (String × String)) (b : RunBehavior) (k : String)
    (hk : k ≠ "MPLBACKEND") :
    lookupEnv (execute_script fs tempPath content pv parentEnv b).childEnv
        "MPLBACKEND" = none
    ∧ lookupEnv (execute_script fs tempPath content pv parentEnv b).childEnv k
      = lookupEnv parentEnv k := by
  rw [execute_script_childEnv]
  exact ⟨lookupEnv_scrubEnv_removed parentEnv,
    lookupEnv_scrubEnv_other parentEnv k hk⟩

theorem c8_scrubbed_environment_witness :
    lookupEnv
        (execute_script [] "/tmp/t.py" "" none
          [("MPLBACKEND", "qtagg"), ("PATH", "/usr/bin")]
          (RunBehavior.completes 0 "" "")).childEnv "MPLBACKEND" = none
    ∧ lookupEnv
        (execute_script [] "/tmp/t.py" "" none
          [("MPLBACKEND", "qtagg"), ("PATH", "/usr/bin")]
          (RunBehavior.completes 0 "" "")).childEnv "PATH"
      = lookupEnv [("MPLBACKEND", "qtagg"), ("PATH", "/usr/bin")] "PATH" :=
  c8_scrubbed_environment [] "/tmp/t.py" "" none
    [("MPLBACKEND", "qtagg"), ("PATH", "/usr/bin")]
    (RunBehavior.completes 0 "" "") "PATH" (by decide)

/-- C9: when the Isolated Runner reports a failure, `execute_script`
returns `None`, and `process_output`, given that `None` — or the empty
string, equally falsy — returns immediately: nothing is displayed, no parse
is attempted, nothing raises. -/
theorem c9_empty_input_ignored (fs : List (String × String))
    (tempPath content : String) (pv : Option String)
    (env : List (String × String)) (n : Nat) (out err : String) :
    (execute_script fs tempPath content pv env
        (RunBehavior.completes (n + 1) out err)).ret = Except.ok none
    ∧ process_output none = Except.ok []
    ∧ process_output (some "") = Except.ok [] :=
  ⟨rfl, rfl, rfl⟩

set_option maxRecDepth 8192 in
/-- C3 counterexample: the claim promises exactly `N` wrapper calls in the
output for user code with `N` direct `print` calls, for *every*
syntactically valid user code.  User code that already calls the wrapper
name refutes it: `custom_print(0)` has `N = 0` direct `print` calls, yet
the rewritten code contains one call to the wrapper primitive, not zero. -/
theorem c3_counterexample :
    countModuleCallsTo "print"
        [PyStmt.exprStmt (PyExpr.call (PyExpr.name "custom_print")
          (PyArgs.cons (PyExpr.numLit 0) PyArgs.nil))] = 0
    ∧ ¬ countModuleCallsTo "custom_print"
        (transformModule
          [PyStmt.exprStmt (PyExpr.call (PyExpr.name "custom_print")
            (PyArgs.cons (PyExpr.numLit 0) PyArgs.nil))]) = 0 := by
  decide

/-- C3 (amended): for syntactically valid user code containing `N` direct
calls to the global `print` primitive and no pre-existing calls to the
wrapper primitive, the rewriting pass produces code with exactly `N` calls
to the wrapper (`custom_print`) and zero direct calls to `print`
(in general it produces `N` plus the pre-existing wrapper calls); string
literals are untouched, and code with zero `print` calls is rewritten to
identical code. -/
theorem c3_print_rewriting (m : PyModule)
    (h : countModuleCallsTo "custom_print" m = 0) :
    countModuleCallsTo "custom_print" (transformModule m)
        = countModuleCallsTo "print" m
    ∧ countModuleCallsTo "print" (transformModule m) = 0
    ∧ moduleStringLits (transformModule m) = moduleStringLits m
    ∧ (countModuleCallsTo "print" m = 0 → transformModule m = m) := by
  refine ⟨?_, countPrint_transformModule m, stringLits_transformModule m,
    transformModule_id_of_no_print m⟩
  rw [countCustom_transformModule m, h, Nat.zero_add]

theorem c3_print_rewriting_witness :
    countModuleCallsTo "custom_print"
        (transformModule
          [PyStmt.exprStmt (PyExpr.call (PyExpr.name "print")
            (PyArgs.cons (PyExpr.strLit "hi print") PyArgs.nil))])
        = countModuleCallsTo "print"
          [PyStmt.exprStmt (PyExpr.call (PyExpr.name "print")
            (PyArgs.cons (PyExpr.strLit "hi print") PyArgs.nil))]
    ∧ countModuleCallsTo "print"
        (transformModule
          [PyStmt.exprStmt (PyExpr.call (PyExpr.name "print")
            (PyArgs.cons (PyExpr.strLit "hi print") PyArgs.nil))]) = 0
    ∧ moduleStringLits
        (transformModule
          [PyStmt.exprStmt (PyExpr.call (PyExpr.name "print")
            (PyArgs.cons (PyExpr.strLit "hi print") PyArgs.nil))])
      = moduleStringLits
          [PyStmt.exprStmt (PyExpr.call (PyExpr.name "print")
            (PyArgs.cons (PyExpr.strLit "hi print") PyArgs.nil))]
    ∧ (countModuleCallsTo "print"
          [PyStmt.exprStmt (PyExpr.call (PyExpr.name "print")
            (PyArgs.cons (PyExpr.strLit "hi print") PyArgs.nil))] = 0 →
        transformModule
            [PyStmt.exprStmt (PyExpr.call (PyExpr.name "print")
              (PyArgs.cons (PyExpr.strLit "hi print") PyArgs.nil))]
          = [PyStmt.exprStmt (PyExpr.call (PyExpr.name "print")
              (PyArgs.cons (PyExpr.strLit "hi print") PyArgs.nil))]) :=
  c3_print_rewriting
    [PyStmt.exprStmt (PyExpr.call (PyExpr.name "print")
      (PyArgs.cons (PyExpr.strLit "hi print") PyArgs.nil))] (by decide)

set_option maxRecDepth 8192 in
set_option maxHeartbeats 1000000 in
/-- C4: the claim says a user-code exception is caught inside the child and
a red-styled preformatted block containing the failure message *and the
full traceback* is appended to the stdout accumulator.  The harness does
catch the exception and exits 0 (the invocation is reported successful),
and the red block with the message goes to the stdout accumulator — but
`traceback.print_exc()` writes to `sys.stderr`, which is still redirected
to the *stderr* accumulator, so the `<pre>` block in stdout holds only the
message and a bare `Traceback:` heading while the traceback text lands in
the stderr accumulator.  Evaluated here at user code raising
`ValueError('boom')`. -/
theorem c4_traceback_in_stderr_accumulator :
    (harnessRun
        ⟨"", "", some ("boom",
          "Traceback (most recent call last):\n  File \"<string>\", line 1\nValueError: boom\n")⟩
        false []).exitCode = 0
    ∧ (harnessRun
        ⟨"", "", some ("boom",
          "Traceback (most recent call last):\n  File \"<string>\", line 1\nValueError: boom\n")⟩
        false []).stdoutAcc
      = "<pre style=\"color:red;\">An error occurred: boom\nTraceback:\n</pre>\n"
    ∧ (harnessRun
        ⟨"", "", some ("boom",
          "Traceback (most recent call last):\n  File \"<string>\", line 1\nValueError: boom\n")⟩
        false []).stderrAcc
      = "Traceback (most recent call last):\n  File \"<string>\", line 1\nValueError: boom\n" :=
  ⟨rfl, rfl, rfl⟩

theorem normalizePythonSpec_ne_empty (C : String) : normalizePythonSpec C ≠ "" := by
  unfold normalizePythonSpec
  split
  · rename_i h
    intro hC
    subst hC
    exact absurd h (by decide)
  · intro hC
    have hd := congrArg String.data hC
    simp [String.data_append] at hd

/-- C5: for every dependency list `D` and constraint token `C`, the
synthesized program's header declares the dependencies equal to `D`, in
order, as a JSON array, and declares the constraint equal to `C` normalized
to carry a comparison operator — `C` unchanged when it already starts with
one of `==`, `>=`, `<=`, `>`, `<`, `~=`, `!=`, prefixed with `==`
otherwise; the `requires-python` line is present exactly when a constraint
was supplied, and the header is the initial segment of the `build_script`
output. -/
theorem c5_dependency_header (C : String) (D : List String) :
    normalizePythonSpec C
        = (if constraintOps.any (fun op => startswith C op) then C else "==" ++ C)
    ∧ headerLines (some (normalizePythonSpec C)) D
        = ["# /// script",
           "# requires-python = \"" ++ normalizePythonSpec C ++ "\"",
           "# dependencies = " ++ jsonDumpsList D,
           "# ///"]
    ∧ headerLines none D
        = ["# /// script", "# dependencies = " ++ jsonDumpsList D, "# ///"]
    ∧ jsonDumpsList D = "[" ++ String.intercalate ", " (D.map jsonStr) ++ "]"
    ∧ ∀ (m : PyModule) (mpl : Bool),
        build_script (Except.ok m) (some (normalizePythonSpec C)) D mpl
          = Except.ok (String.intercalate "\n"
                (headerLines (some (normalizePythonSpec C)) D)
              ++ "\n" ++ scriptBody mpl (indent4 (unparseModule (transformModule m)))) := by
  refine ⟨rfl, ?_, rfl, rfl, fun m mpl => rfl⟩
  simp [headerLines, pyTruthy, bne_iff_ne, normalizePythonSpec_ne_empty C]

set_option maxRecDepth 8192 in
/-- C6 counterexample: the claim says the Result Reconstructor never
raises on any raw stdout string.  But only `json.JSONDecodeError` is
handled: a string that parses as valid JSON yet is not an object — here
`"null"` — reaches `output.get` on a non-dict and raises
`AttributeError` out of `process_output`. -/
theorem c6_counterexample :
    process_output (some "null") = Except.error "AttributeError" := rfl

/-- C6 (amended): `process_output` does not raise when the raw string
fails to parse as JSON (the raw text is printed verbatim after a
`Failed to decode JSON` tag) nor when it parses as a JSON object (the
`stdout` value is displayed as markup and the `stderr` value is printed as
plain diagnostic text exactly when it is truthy, i.e. non-empty for
strings); a string parsing to a non-object JSON value, however, raises
`AttributeError`. -/
theorem c6_reconstructor (s : String) (hs : s ≠ "") :
    (jsonLoads s = none →
        process_output (some s)
          = Except.ok [DisplayAct.textLine "Failed to decode JSON. Raw output:",
              DisplayAct.textLine s])
    ∧ (∀ kvs : List (String × JValue), jsonLoads s = some (JValue.obj kvs) →
        process_output (some s)
          = Except.ok ([DisplayAct.html (outputHtml ((dictGet kvs "stdout").getD (JValue.str "")))]
              ++ (if jTruthy ((dictGet kvs "stderr").getD (JValue.str "")) then
                    [DisplayAct.textLine "\nSTDERR:",
                     DisplayAct.textLine (pyStrJ ((dictGet kvs "stderr").getD (JValue.str "")))]
                  else []))) := by
  have hb : (s == "") = false := by
    simp [hs]
  constructor
  · intro h
    simp [process_output, hb, h]
  · intro kvs h
    simp [process_output, hb, h]

set_option maxRecDepth 8192 in
set_option maxHeartbeats 1000000 in
theorem c6_reconstructor_witness :
    process_output (some "\x7b\"stdout\": \"hi\", \"stderr\": \"\"\x7d")
      = Except.ok [DisplayAct.html (outputHtml (JValue.str "hi"))] := by
  have h := (c6_reconstructor "\x7b\"stdout\": \"hi\", \"stderr\": \"\"\x7d" (by decide)).2
    [("stdout", JValue.str "hi"), ("stderr", JValue.str "")] (by rfl)
  rw [h]
  rfl

/-- C7 counterexample: `build_script` is not total on every user-code
string — on a string `ast.parse` rejects, `replace_print_statements`
raises `SyntaxError` and `build_script` returns no Synthesized Program
(user code is represented by its `ast.parse` outcome). -/
theorem c7_counterexample :
    build_script (Except.error "SyntaxError: invalid syntax") none [] false
      = Except.error "SyntaxError: invalid syntax" := rfl

/-- C7 (amended): `build_script` is a pure total function on every
*syntactically valid* user code and option set, returning the synthesized
program; in particular the empty cell (`ast.parse("")` gives the empty
module, whose unparse is the empty string) still yields a valid program
whose capture region is empty, not an error.  A syntactically invalid cell,
however, propagates `SyntaxError`. -/
theorem c7_total_on_valid (m : PyModule) (python_spec : Option String)
    (deps : List String) (mpl : Bool) :
    build_script (Except.ok m) python_spec deps mpl
        = Except.ok (String.intercalate "\n" (headerLines python_spec deps)
            ++ "\n" ++ scriptBody mpl (indent4 (unparseModule (transformModule m))))
    ∧ build_script (Except.ok []) python_spec deps mpl
        = Except.ok (String.intercalate "\n" (headerLines python_spec deps)
            ++ "\n" ++ scriptBody mpl "") :=
  ⟨rfl, rfl⟩

/-- C10: `parse_arguments` is total on any token list: a token that is not
`python=<value>`, `--python` or `--with` is silently skipped; a trailing
`--python` or `--with` with no following token is ignored rather than an
error; `--with` collects every following token as a dependency until the
next token starting with `--` (which stays in the stream) or the end of the
line; `--python` consumes exactly the next token. -/
theorem c10_option_parsing (a : Args) (t : String) (rest : List String)
    (h1 : startswith t "python=" = false) (h2 : t ≠ "--python")
    (h3 : t ≠ "--with") :
    parseArgsLoop a (t :: rest) = parseArgsLoop a rest
    ∧ parseArgsLoop a ["--python"] = a
    ∧ parseArgsLoop a ["--with"] = a
    ∧ (rest ≠ [] →
        parseArgsLoop a ("--with" :: rest)
          = parseArgsLoop
              { a with withDeps := some (rest.takeWhile (fun x => !startswith x "--")) }
              (rest.dropWhile (fun x => !startswith x "--")))
    ∧ (rest ≠ [] →
        parseArgsLoop a ("--python" :: rest)
          = parseArgsLoop { a with pythonVersion := some rest.head! } rest.tail) := by
  refine ⟨?_, ?_, ?_, ?_, ?_⟩
  · cases rest with
    | nil => simp [parseArgsLoop, h1]
    | cons q r => simp [parseArgsLoop, h1, h2, h3]
  · simp only [parseArgsLoop]
    rw [if_neg (by decide)]
  · simp only [parseArgsLoop]
    rw [if_neg (by decide)]
  · intro hrest
    cases rest with
    | nil => exact absurd rfl hrest
    | cons q r =>
        simp only [parseArgsLoop]
        rw [if_neg (by decide), if_neg (by decide), if_pos trivial]
  · intro hrest
    cases rest with
    | nil => exact absurd rfl hrest
    | cons q r =>
        simp only [parseArgsLoop]
        rw [if_neg (by decide), if_pos trivial]
        rfl

theorem c10_option_parsing_witness :
    parseArgsLoop {} ["--verbose", "python=3.12"] = parseArgsLoop {} ["python=3.12"] :=
  (c10_option_parsing {} "--verbose" ["python=3.12"] (by decide) (by decide)
    (by decide)).1

end UVMagic
